import Mathlib

/-!
Verification development for the GRPO transfer module
(src/modules/grpo_transfer/routes.py).

Shallow embedding conventions:
- Python float quantities are modelled as rationals; the claims only use
  order comparisons and integer truncation, which floats realise exactly
  on the relevant inputs.
- Database rows become Lean structures; the per-request database session
  becomes explicit values threaded through pure functions; a request
  handler becomes a function from its inputs (looked-up session, request
  payload, ERP response) to a result value carrying the HTTP-level outcome
  and the committed state.
- The ORM models module (modules/grpo_transfer/models.py) is not part of
  the sources; field names and the two distinct child ledgers of an item
  (splits, created by QC approval from GRPOTransferSplit, and batch
  records from GRPOTransferBatch, read via item.batches) are taken from
  the attribute accesses and the import list in routes.py.
- json.dumps of the label payload is modelled structurally: the QRData
  structure stands for the serialized dictionary, field for field.
- datetime.now() is passed in as an opaque timestamp string.
-/

namespace GrpoTransfer

/-- Python int() applied to a numeric value truncates toward zero. -/
def pyTrunc (q : ℚ) : ℤ := if q < 0 then ⌈q⌉ else ⌊q⌋

/-- Python truthiness of an optional string: None and the empty string are falsy. -/
def truthyStr : Option String → Bool
  | none => false
  | some t => !t.isEmpty

/-- One GRPOTransferSplit row (created in qc_approve_items, lines 800-812);
fields mirror the constructor keyword arguments, each a .get from the
request so each is optional, with quantity defaulted to 0. -/
structure Split where
  split_number : Option ℤ
  quantity : ℚ
  status : Option String
  from_warehouse : Option String
  from_bin_code : Option String
  to_warehouse : Option String
  to_bin_code : Option String
  batch_number : Option String
  notes : Option String
  deriving DecidableEq

/-- One GRPOTransferBatch row, as read by routes.py (batch_number at lines
927/937/1019, approved_quantity at line 1020). This ledger is distinct from
the split ledger: both classes are imported separately at lines 15-18. -/
structure Batch where
  batch_number : Option String
  approved_quantity : ℚ
  deriving DecidableEq

/-- One GRPOTransferItem row, with the fields routes.py reads or writes.
The splits list models the GRPOTransferSplit rows whose item_id points at
this item; the batches list models the item.batches relationship used at
lines 927, 937 and 1016-1020. -/
structure Item where
  id : ℕ
  item_code : String
  item_name : String
  is_batch_item : Bool
  approved_quantity : ℚ
  rejected_quantity : ℚ
  qc_status : String
  qc_notes : Option String
  from_warehouse : Option String
  to_warehouse : Option String
  from_bin_code : Option String
  to_bin_code : Option String
  sap_base_entry : Option ℤ
  sap_base_line : Option ℤ
  splits : List Split
  batches : List Batch
  deriving DecidableEq

/-- One GRPOTransferSession row with the fields routes.py reads or writes;
items models the session.items relationship in its stored order. -/
structure Session where
  session_code : String
  doc_date : String
  status : String
  qc_approved_by : Option ℕ
  transfer_doc_entry : Option ℤ
  transfer_doc_num : Option ℤ
  items : List Item
  deriving DecidableEq

/-- The qr_data dictionary built at lines 919-929, field for field; the
json.dumps serialization is modelled by this structure itself. -/
structure QRData where
  session_code : String
  item_code : String
  item_name : String
  quantity : ℕ
  label : String
  from_warehouse : Option String
  to_warehouse : Option String
  batch_number : Option String
  timestamp : String
  deriving DecidableEq

/-- One GRPOTransferQRLabel row as constructed at lines 931-941. -/
structure QRLabel where
  session_id : ℕ
  item_id : ℕ
  label_number : ℕ
  total_labels : ℤ
  qr_data : QRData
  batch_number : Option String
  quantity : ℕ
  from_warehouse : Option String
  to_warehouse : Option String
  deriving DecidableEq

/-- The batch number attached to a minted label: first element of the
item.batches relationship if any, else None (lines 927 and 937). -/
def firstBatchNumber (item : Item) : Option String :=
  match item.batches with
  | [] => none
  | b :: _ => b.batch_number

/-- The label text of the qr_data dictionary: the f-string at line 924. -/
def labelText (k : ℕ) (n : ℤ) : String :=
  toString k ++ " of " ++ toString n

/-- The labels minted for one approved item by the loop at lines 911-944:
compute approved_qty as int(item.approved_quantity); skip the item when
that is non-positive; otherwise one label per label_num in
range(1, approved_qty + 1). -/
def labelsForItem (session_id : ℕ) (session_code : String) (now : String)
    (item : Item) : List QRLabel :=
  let approved_qty := pyTrunc item.approved_quantity
  if approved_qty ≤ 0 then []
  else
    (List.range approved_qty.toNat).map fun k =>
      { session_id := session_id
        item_id := item.id
        label_number := k + 1
        total_labels := approved_qty
        qr_data :=
          { session_code := session_code
            item_code := item.item_code
            item_name := item.item_name
            quantity := 1
            label := labelText (k + 1) approved_qty
            from_warehouse := item.from_warehouse
            to_warehouse := item.to_warehouse
            batch_number := firstBatchNumber item
            timestamp := now }
        batch_number := firstBatchNumber item
        quantity := 1
        from_warehouse := item.from_warehouse
        to_warehouse := item.to_warehouse }

/-- Outcome of the generate_qr_labels handler (lines 889-968):
sessionNotFound is the 404 branch; noApprovedItems the 400 at lines
902-906; noLabelsGenerated the 400 at lines 946-950; ok carries the rows
committed at line 952 together with label_count returned in the response. -/
inductive GenResult where
  | sessionNotFound
  | noApprovedItems
  | noLabelsGenerated
  | ok (labels : List QRLabel) (label_count : ℕ)
  deriving DecidableEq

/-- The label rows committed to the database by one generate_qr_labels
call: all minted rows in the ok branch (single commit at line 952), none
on any error branch (the handler returns before the commit). -/
def committedLabels : GenResult → List QRLabel
  | .ok labels _ => labels
  | _ => []

/-- generate_qr_labels (lines 889-968) over an already looked-up session:
filter the session items to qc_status == approved and approved_quantity > 0
(line 900); fail if none; mint the per-item labels; fail if the total count
is zero; otherwise commit and report the count. -/
def generate_qr_labels (sessionOpt : Option Session) (session_id : ℕ)
    (now : String) : GenResult :=
  match sessionOpt with
  | none => .sessionNotFound
  | some session =>
    let approved_items := session.items.filter fun item =>
      item.qc_status == "approved" && decide (0 < item.approved_quantity)
    if approved_items.isEmpty then
      .noApprovedItems
    else
      let labels := approved_items.flatMap (labelsForItem session_id session.session_code now)
      if labels.length == 0 then
        .noLabelsGenerated
      else
        .ok labels labels.length

/-- One BatchNumbers entry of a stock transfer line (lines 1018-1021). -/
structure BatchLine where
  BatchNumber : Option String
  Quantity : ℚ
  deriving DecidableEq

/-- One StockTransferLinesBinAllocations entry (lines 1025-1030 and
1033-1038); BinAbsEntry is the placeholder constant 1 of the source. -/
structure BinAllocation where
  BinActionType : String
  BinAbsEntry : ℕ
  Quantity : ℚ
  SerialAndBatchNumbersBaseLine : ℕ
  deriving DecidableEq

/-- One line of the stock transfer document (lines 1002-1013 plus the
conditional batch and bin entries). -/
structure TransferLine where
  LineNum : ℕ
  ItemCode : String
  Quantity : ℚ
  WarehouseCode : Option String
  FromWarehouseCode : Option String
  BaseEntry : Option ℤ
  BaseLine : Option ℤ
  BaseType : String
  BatchNumbers : List BatchLine
  StockTransferLinesBinAllocations : List BinAllocation
  deriving DecidableEq

/-- The stock transfer document header and lines (lines 989-995). The
header warehouses come from the first raw session item when the item list
is non-empty, else the empty string. -/
structure StockTransfer where
  DocDate : String
  Comments : String
  FromWarehouse : Option String
  ToWarehouse : Option String
  StockTransferLines : List TransferLine
  deriving DecidableEq

/-- The line built for one approved item at index idx of the full item
list (lines 1002-1038): LineNum is the enumerate index over the unfiltered
session.items; BatchNumbers are added when the item is batch managed and
item.batches is non-empty; one from and one to bin allocation are added
when the respective bin code is truthy. -/
def buildLine (idx : ℕ) (item : Item) : TransferLine :=
  { LineNum := idx
    ItemCode := item.item_code
    Quantity := item.approved_quantity
    WarehouseCode := item.to_warehouse
    FromWarehouseCode := item.from_warehouse
    BaseEntry := item.sap_base_entry
    BaseLine := item.sap_base_line
    BaseType := "1250000001"
    BatchNumbers :=
      if item.is_batch_item && !item.batches.isEmpty then
        item.batches.map fun b =>
          { BatchNumber := b.batch_number, Quantity := b.approved_quantity }
      else []
    StockTransferLinesBinAllocations :=
      (if truthyStr item.from_bin_code then
        [{ BinActionType := "batFromWarehouse", BinAbsEntry := 1,
           Quantity := item.approved_quantity, SerialAndBatchNumbersBaseLine := 0 }]
      else []) ++
      (if truthyStr item.to_bin_code then
        [{ BinActionType := "batToWarehouse", BinAbsEntry := 1,
           Quantity := item.approved_quantity, SerialAndBatchNumbersBaseLine := 0 }]
      else []) }

/-- The loop at lines 998-1040: for idx, item in enumerate(session.items),
skip items whose qc_status is not approved, keep the enumerate index for
the lines that are built. -/
def buildLines (idx : ℕ) : List Item → List TransferLine
  | [] => []
  | item :: rest =>
    if item.qc_status == "approved" then
      buildLine idx item :: buildLines (idx + 1) rest
    else
      buildLines (idx + 1) rest

/-- The stock_transfer dictionary assembled at lines 989-1040, taking the
first name of the posting user for the Comments field. -/
def build_stock_transfer (session : Session) (first_name : String) : StockTransfer :=
  { DocDate := session.doc_date
    Comments := "QC Approved WMS Transfer " ++ session.session_code ++ " by " ++ first_name
    FromWarehouse :=
      match session.items with
      | [] => some ""
      | item :: _ => item.from_warehouse
    ToWarehouse :=
      match session.items with
      | [] => some ""
      | item :: _ => item.to_warehouse
    StockTransferLines := buildLines 0 session.items }

/-- The ERP response to the StockTransfers POST: an HTTP status code and
the DocEntry and DocNum fields of its JSON body. -/
structure ErpResponse where
  status_code : ℕ
  DocEntry : Option ℤ
  DocNum : Option ℤ
  deriving DecidableEq

/-- Outcome of the post_transfer_to_sap handler (lines 976-1088):
notFound is the 404 branch; success carries the submitted document and
the committed updated session (lines 1048-1074); erpFailure the non-200/201
branch at lines 1075-1081, with the session left unchanged; excepted the
except branch at lines 1083-1088, also leaving the session unchanged. -/
inductive PostResult where
  | notFound
  | success (doc : StockTransfer) (updated : Session)
  | erpFailure (doc : StockTransfer) (unchanged : Session) (status : ℕ)
  | excepted (doc : StockTransfer) (unchanged : Session)
  deriving DecidableEq

/-- The session row as committed after one post_transfer_to_sap call. -/
def sessionAfter : PostResult → Option Session
  | .notFound => none
  | .success _ updated => some updated
  | .erpFailure _ unchanged _ => some unchanged
  | .excepted _ unchanged => some unchanged

/-- The document submitted to the ERP by one post_transfer_to_sap call,
when the handler got past the session lookup. -/
def submittedDoc : PostResult → Option StockTransfer
  | .notFound => none
  | .success doc _ => some doc
  | .erpFailure doc _ _ => some doc
  | .excepted doc _ => some doc

/-- post_transfer_to_sap (lines 976-1088) over an already looked-up
session. The document is always assembled and submitted once the session
is found; the environment answer is either an ErpResponse or a raised
error (network failure or body parse failure). Only status codes 200 and
201 take the success branch (line 1048), which sets transfer_doc_entry,
transfer_doc_num and status := transferred before committing; every other
outcome leaves the session as it was. -/
def post_transfer_to_sap (sessionOpt : Option Session) (first_name : String)
    (outcome : Except Unit ErpResponse) : PostResult :=
  match sessionOpt with
  | none => .notFound
  | some session =>
    let doc := build_stock_transfer session first_name
    match outcome with
    | .error _ => .excepted doc session
    | .ok resp =>
      if resp.status_code == 200 || resp.status_code == 201 then
        .success doc
          { session with
            transfer_doc_entry := resp.DocEntry
            transfer_doc_num := resp.DocNum
            status := "transferred" }
      else
        .erpFailure doc session resp.status_code

/-- One element of the items array of a qc-approve request (lines
784-811), after the .get defaults of the source are applied: quantities
default to 0, qc_status to pending, the rest to None; splits carries the
split rows to create for this item. -/
structure ItemApproval where
  item_id : ℕ
  approved_quantity : ℚ
  rejected_quantity : ℚ
  qc_status : String
  qc_notes : Option String
  to_warehouse : Option String
  to_bin_code : Option String
  splits : List Split
  deriving DecidableEq

/-- The in-place update of one found item (lines 790-812): overwrite the
quantity, status, notes and destination fields and append the new split
rows to the split ledger of the item. -/
def updateItem (appr : ItemApproval) (item : Item) : Item :=
  { item with
    approved_quantity := appr.approved_quantity
    rejected_quantity := appr.rejected_quantity
    qc_status := appr.qc_status
    qc_notes := appr.qc_notes
    to_warehouse := appr.to_warehouse
    to_bin_code := appr.to_bin_code
    splits := item.splits ++ appr.splits }

/-- One iteration of the approval loop (lines 784-812): the item is looked
up by primary key; when no item has the requested id the iteration is a
no-op (the continue at line 787), otherwise the matching item is updated
in place. -/
def applyApproval (appr : ItemApproval) (items : List Item) : List Item :=
  items.map fun item =>
    if item.id == appr.item_id then updateItem appr item else item

/-- Outcome of the qc_approve_items handler (lines 771-839): notFound is
the 404 branch; ok carries the committed session, with its item ledger
updated and status and approver set. -/
inductive QcResult where
  | notFound
  | ok (updated : Session)
  deriving DecidableEq

/-- qc_approve_items (lines 771-839) over an already looked-up session:
fold the approval loop over the request batch, then set status :=
in_progress and qc_approved_by := the current user, unconditionally
(lines 814-816), and commit. -/
def qc_approve_items (sessionOpt : Option Session) (approvals : List ItemApproval)
    (user_id : ℕ) : QcResult :=
  match sessionOpt with
  | none => .notFound
  | some session =>
    .ok
      { session with
        items := approvals.foldl (fun items appr => applyApproval appr items) session.items
        status := "in_progress"
        qc_approved_by := some user_id }

/-- Baseline item fixture used by the concrete test sessions below. -/
def baseItem : Item :=
  { id := 0
    item_code := "X"
    item_name := "Item X"
    is_batch_item := false
    approved_quantity := 0
    rejected_quantity := 0
    qc_status := "pending"
    qc_notes := none
    from_warehouse := some "WH-SRC"
    to_warehouse := some "WH-DST"
    from_bin_code := none
    to_bin_code := none
    sap_base_entry := none
    sap_base_line := none
    splits := []
    batches := [] }

/-- Baseline session fixture used by the concrete test sessions below. -/
def baseSession : Session :=
  { session_code := "GRPO-1"
    doc_date := "2026-01-13"
    status := "in_progress"
    qc_approved_by := none
    transfer_doc_entry := none
    transfer_doc_num := none
    items := [] }

/-- Fixture for the label count example: one approved item with quantity 2.7. -/
def ex1item : Item :=
  { baseItem with
    id := 11
    item_code := "C"
    approved_quantity := mkRat 27 10
    qc_status := "approved" }

/-- Session holding ex1item. -/
def ex1 : Session := { baseSession with items := [ex1item] }

/-- Fixture: a pending first item with its own warehouse pair. -/
def exItemA : Item :=
  { baseItem with
    id := 1
    item_code := "A"
    from_warehouse := some "WH-1"
    to_warehouse := some "WH-2" }

/-- Fixture: an approved second item with a different warehouse pair. -/
def exItemB : Item :=
  { baseItem with
    id := 2
    item_code := "B"
    approved_quantity := 5
    qc_status := "approved"
    from_warehouse := some "WH-3"
    to_warehouse := some "WH-4" }

/-- Session whose first item is pending and second approved. -/
def ex2 : Session := { baseSession with items := [exItemA, exItemB] }

/-- The one transfer line built for ex2: the approved item B at index 1. -/
def ex2line : TransferLine := buildLine 1 exItemB

/-- Session for the transfer posting round trip: one approved item, no
transfer identifiers yet. -/
def ex3 : Session := { baseSession with items := [exItemB] }

/-- ERP answer with status 200. -/
def resp200 : ErpResponse := { status_code := 200, DocEntry := some 77, DocNum := some 88 }

/-- ERP answer with status 202: inside the 2xx range but not 200 or 201. -/
def resp202 : ErpResponse := { status_code := 202, DocEntry := some 77, DocNum := some 88 }

/-- ERP answer with status 500. -/
def resp500 : ErpResponse := { status_code := 500, DocEntry := none, DocNum := none }

/-- Fixture for the label batch number: an approved item that has one
split carrying a batch number but no batch record. -/
def ex6item : Item :=
  { baseItem with
    id := 61
    item_code := "S"
    approved_quantity := 1
    qc_status := "approved"
    splits := [{ split_number := some 1
                 quantity := 1
                 status := some "OK"
                 from_warehouse := some "WH-SRC"
                 from_bin_code := none
                 to_warehouse := some "WH-DST"
                 to_bin_code := none
                 batch_number := some "SPL-1"
                 notes := none }] }

/-- Session holding ex6item. -/
def ex6 : Session := { baseSession with items := [ex6item] }

/-- Fixture: an approved item with one batch record. -/
def ex6bitem : Item :=
  { baseItem with
    id := 66
    item_code := "T"
    approved_quantity := 1
    qc_status := "approved"
    batches := [{ batch_number := some "B-9", approved_quantity := 1 }] }

/-- Session holding ex6bitem. -/
def ex6b : Session := { baseSession with items := [ex6bitem] }

/-- The single label minted for ex6b. -/
def ex6bLabel : QRLabel :=
  { session_id := 9
    item_id := 66
    label_number := 1
    total_labels := 1
    qr_data :=
      { session_code := "GRPO-1"
        item_code := "T"
        item_name := "Item X"
        quantity := 1
        label := labelText 1 1
        from_warehouse := some "WH-SRC"
        to_warehouse := some "WH-DST"
        batch_number := some "B-9"
        timestamp := "t" }
    batch_number := some "B-9"
    quantity := 1
    from_warehouse := some "WH-SRC"
    to_warehouse := some "WH-DST" }

/-- Session with only a pending item: nothing is eligible for labels. -/
def ex7 : Session := { baseSession with items := [exItemA] }

/-- Fixture: an approved item whose approved quantity truncates to zero. -/
def ex8item : Item :=
  { baseItem with
    id := 81
    item_code := "H"
    approved_quantity := mkRat 1 2
    qc_status := "approved" }

/-- Session holding ex8item. -/
def ex8 : Session := { baseSession with items := [ex8item] }

/-- An approval referencing an item id that no session item carries. -/
def ghostApproval : ItemApproval :=
  { item_id := 99
    approved_quantity := 4
    rejected_quantity := 0
    qc_status := "approved"
    qc_notes := none
    to_warehouse := some "WH-DST"
    to_bin_code := none
    splits := [] }

/-- An approval for the known item exItemA. -/
def knownApproval : ItemApproval :=
  { item_id := 1
    approved_quantity := 3
    rejected_quantity := 1
    qc_status := "approved"
    qc_notes := some "ok"
    to_warehouse := some "WH-9"
    to_bin_code := none
    splits := [] }

/-- Session with no items at all. -/
def ex10 : Session := { baseSession with items := [] }

/-! Helper lemmas shared by the claim theorems. -/

lemma pyTrunc_of_pos {q : ℚ} (hq : 0 < q) : pyTrunc q = ⌊q⌋ := by
  unfold pyTrunc
  rw [if_neg (not_lt.mpr hq.le)]

lemma buildLines_nil_of_none (idx : ℕ) (l : List Item)
    (h : ∀ item ∈ l, item.qc_status ≠ "approved") : buildLines idx l = [] := by
  induction l generalizing idx with
  | nil => rfl
  | cons item rest ih =>
    have hne : (item.qc_status == "approved") = false := by
      simpa using h item (List.mem_cons_self item rest)
    simp only [buildLines, hne, Bool.false_eq_true, if_false]
    exact ih (idx + 1) fun it hit => h it (List.mem_cons_of_mem item hit)

/-- C4: for every existing session and every approval batch, including the
empty batch and batches with only unresolvable item references, QC approval
sets the session status to in_progress and records the invoking user as
the approver, once per invocation. -/
theorem c4_qc_sets_status_unconditionally (s : Session)
    (approvals : List ItemApproval) (u : ℕ) :
    ∃ s2, qc_approve_items (some s) approvals u = .ok s2
      ∧ s2.status = "in_progress" ∧ s2.qc_approved_by = some u :=
  ⟨_, rfl, rfl, rfl⟩

/-- C5: the stock transfer header warehouses are taken from the first item
of the full, unfiltered session item list, regardless of the warehouse
fields of the other items and of which items are approved. -/
theorem c5_header_from_first_item (s : Session) (first_name : String)
    (item : Item) (rest : List Item) (h : s.items = item :: rest) :
    (build_stock_transfer s first_name).FromWarehouse = item.from_warehouse
    ∧ (build_stock_transfer s first_name).ToWarehouse = item.to_warehouse := by
  constructor <;> simp [build_stock_transfer, h]

/-- Witness for C5 at the concrete session ex2, whose first item is not
even approved and whose second item has a different warehouse pair. -/
theorem c5_witness :
    ex2.items = exItemA :: [exItemB]
    ∧ (build_stock_transfer ex2 "u").FromWarehouse = exItemA.from_warehouse
    ∧ (build_stock_transfer ex2 "u").ToWarehouse = exItemA.to_warehouse :=
  ⟨rfl, c5_header_from_first_item ex2 "u" exItemA [exItemB] rfl⟩

/-- C7: when no session item is approved with strictly positive approved
quantity, label minting fails with the no-approved-items condition and
commits no label row. -/
theorem c7_no_approved_items_fails (s : Session) (sid : ℕ) (now : String)
    (h : ∀ item ∈ s.items, ¬(item.qc_status = "approved" ∧ 0 < item.approved_quantity)) :
    generate_qr_labels (some s) sid now = .noApprovedItems
    ∧ committedLabels (generate_qr_labels (some s) sid now) = [] := by
  have hf : s.items.filter (fun item =>
      item.qc_status == "approved" && decide (0 < item.approved_quantity)) = [] := by
    rw [List.filter_eq_nil_iff]
    intro a ha
    simpa using h a ha
  have hgen : generate_qr_labels (some s) sid now = .noApprovedItems := by
    simp [generate_qr_labels, hf]
  exact ⟨hgen, by rw [hgen]; rfl⟩

/-- Witness for C7 at the concrete session ex7, whose only item is pending. -/
theorem c7_witness :
    (∀ item ∈ ex7.items, ¬(item.qc_status = "approved" ∧ 0 < item.approved_quantity))
    ∧ generate_qr_labels (some ex7) 3 "t" = .noApprovedItems
    ∧ committedLabels (generate_qr_labels (some ex7) 3 "t") = [] :=
  ⟨by decide, c7_no_approved_items_fails ex7 3 "t" (by decide)⟩

/-- C8: when eligible items exist but every eligible item has a
non-positive integer-truncated approved quantity, label minting fails with
the no-labels-generated condition and commits no label row. -/
theorem c8_all_truncated_zero_fails (s : Session) (sid : ℕ) (now : String)
    (hex : ∃ item, item ∈ s.items ∧ item.qc_status = "approved" ∧ 0 < item.approved_quantity)
    (hall : ∀ item ∈ s.items, item.qc_status = "approved" → 0 < item.approved_quantity →
      pyTrunc item.approved_quantity ≤ 0) :
    generate_qr_labels (some s) sid now = .noLabelsGenerated
    ∧ committedLabels (generate_qr_labels (some s) sid now) = [] := by
  obtain ⟨it0, hmem0, hst0, hq0⟩ := hex
  have hmemf : it0 ∈ s.items.filter (fun item =>
      item.qc_status == "approved" && decide (0 < item.approved_quantity)) :=
    List.mem_filter.mpr ⟨hmem0, by simp [hst0, hq0]⟩
  have hfne : (s.items.filter (fun item =>
      item.qc_status == "approved" && decide (0 < item.approved_quantity))).isEmpty = false := by
    simp only [List.isEmpty_eq_false]
    exact List.ne_nil_of_mem hmemf
  have hlabels : (s.items.filter (fun item =>
      item.qc_status == "approved" && decide (0 < item.approved_quantity))).flatMap
        (labelsForItem sid s.session_code now) = [] := by
    rw [List.flatMap_eq_nil_iff]
    intro it hit
    obtain ⟨hmem1, hp1⟩ := List.mem_filter.mp hit
    simp only [Bool.and_eq_true, beq_iff_eq, decide_eq_true_eq] at hp1
    have ht := hall it hmem1 hp1.1 hp1.2
    simp [labelsForItem, ht]
  have hgen : generate_qr_labels (some s) sid now = .noLabelsGenerated := by
    simp [generate_qr_labels, hfne, hlabels]
  exact ⟨hgen, by rw [hgen]; rfl⟩

/-- Witness for C8 at the concrete session ex8, whose only item is
approved with quantity one half. -/
theorem c8_witness :
    (∃ item, item ∈ ex8.items ∧ item.qc_status = "approved" ∧ 0 < item.approved_quantity)
    ∧ generate_qr_labels (some ex8) 4 "t" = .noLabelsGenerated
    ∧ committedLabels (generate_qr_labels (some ex8) 4 "t") = [] :=
  ⟨⟨ex8item, by decide, rfl, by decide⟩,
   c8_all_truncated_zero_fails ex8 4 "t" ⟨ex8item, by decide, rfl, by decide⟩ (by decide)⟩

/-- C10: transfer posting has no guard for sessions without approved
items: the document is still assembled and handed to the ERP with an empty
line list, and, when the session has no items at all, with empty-string
header warehouses. -/
theorem c10_posts_empty_lines (s : Session) (first_name : String)
    (outcome : Except Unit ErpResponse)
    (h : ∀ item ∈ s.items, item.qc_status ≠ "approved") :
    ∃ doc, submittedDoc (post_transfer_to_sap (some s) first_name outcome) = some doc
      ∧ doc.StockTransferLines = []
      ∧ (s.items = [] → doc.FromWarehouse = some "" ∧ doc.ToWarehouse = some "") := by
  refine ⟨build_stock_transfer s first_name, ?_, ?_, ?_⟩
  · cases outcome with
    | error e => rfl
    | ok resp =>
      by_cases hc : (resp.status_code == 200 || resp.status_code == 201) = true
      · simp [post_transfer_to_sap, submittedDoc, hc]
      · simp [post_transfer_to_sap, submittedDoc, hc]
  · simp [build_stock_transfer, buildLines_nil_of_none 0 s.items h]
  · intro he
    constructor <;> simp [build_stock_transfer, he]

/-- Witness for C10 at the concrete empty session ex10 and a 200 answer. -/
theorem c10_witness :
    (∀ item ∈ ex10.items, item.qc_status ≠ "approved")
    ∧ ∃ doc, submittedDoc (post_transfer_to_sap (some ex10) "u" (.ok resp200)) = some doc
      ∧ doc.StockTransferLines = []
      ∧ (ex10.items = [] → doc.FromWarehouse = some "" ∧ doc.ToWarehouse = some "") :=
  ⟨by decide, c10_posts_empty_lines ex10 "u" (.ok resp200) (by decide)⟩

lemma applyApproval_id_map (appr : ItemApproval) (items : List Item) :
    (applyApproval appr items).map Item.id = items.map Item.id := by
  unfold applyApproval
  rw [List.map_map]
  apply List.map_congr_left
  intro a _
  by_cases hc : (a.id == appr.item_id) = true
  · simp [Function.comp, hc, updateItem]
  · simp [Function.comp, hc]

lemma foldl_apply_id_map (b : List ItemApproval) (items : List Item) :
    (b.foldl (fun its appr => applyApproval appr its) items).map Item.id
      = items.map Item.id := by
  induction b generalizing items with
  | nil => rfl
  | cons a rest ih =>
    rw [List.foldl_cons, ih, applyApproval_id_map]

lemma applyApproval_of_not_mem (appr : ItemApproval) (items : List Item)
    (h : appr.item_id ∉ items.map Item.id) :
    applyApproval appr items = items := by
  unfold applyApproval
  induction items with
  | nil => rfl
  | cons a rest ih =>
    simp only [List.map_cons, List.mem_cons, not_or] at h
    have hne : (a.id == appr.item_id) = false :=
      beq_eq_false_iff_ne.mpr fun hEq => h.1 hEq.symm
    simp only [List.map_cons, hne, Bool.false_eq_true, if_false]
    rw [ih h.2]

/-- C9: an approval batch entry whose item reference resolves to no item is
silently skipped: the call behaves exactly as if the entry were absent,
the remaining entries are still processed, and the call still succeeds. -/
theorem c9_unknown_item_skipped (s : Session) (u : ℕ) (b1 b2 : List ItemApproval)
    (a : ItemApproval) (ha : a.item_id ∉ s.items.map Item.id) :
    qc_approve_items (some s) (b1 ++ a :: b2) u = qc_approve_items (some s) (b1 ++ b2) u
    ∧ ∃ s2, qc_approve_items (some s) (b1 ++ a :: b2) u = .ok s2 := by
  have hfold : (b1 ++ a :: b2).foldl (fun its appr => applyApproval appr its) s.items
      = (b1 ++ b2).foldl (fun its appr => applyApproval appr its) s.items := by
    rw [List.foldl_append, List.foldl_append, List.foldl_cons]
    congr 1
    apply applyApproval_of_not_mem
    rw [foldl_apply_id_map]
    exact ha
  refine ⟨?_, ⟨_, rfl⟩⟩
  simp only [qc_approve_items, hfold]

/-- Witness for C9: inside the batch of session ex2, the approval with the
unknown item id 99 is dropped while the approval of item 1 still applies. -/
theorem c9_witness :
    ghostApproval.item_id ∉ ex2.items.map Item.id
    ∧ qc_approve_items (some ex2) ([knownApproval] ++ ghostApproval :: []) 5
        = qc_approve_items (some ex2) ([knownApproval] ++ []) 5
    ∧ ∃ s2, qc_approve_items (some ex2) ([knownApproval] ++ ghostApproval :: []) 5 = .ok s2 :=
  ⟨by decide, c9_unknown_item_skipped ex2 5 [knownApproval] [] ghostApproval (by decide)⟩

/-- C3 (amended): a 200 or 201 answer from the ERP stores the returned
document entry and number on the session and flips its status to
transferred; any other status code, and the exception path, leave the
session exactly as it was. -/
theorem c3_success_200_201 (s : Session) (first_name : String) (resp : ErpResponse) :
    (resp.status_code = 200 ∨ resp.status_code = 201 →
      ∃ s2, sessionAfter (post_transfer_to_sap (some s) first_name (.ok resp)) = some s2
        ∧ s2.transfer_doc_entry = resp.DocEntry
        ∧ s2.transfer_doc_num = resp.DocNum
        ∧ s2.status = "transferred")
    ∧ (resp.status_code ≠ 200 → resp.status_code ≠ 201 →
      sessionAfter (post_transfer_to_sap (some s) first_name (.ok resp)) = some s)
    ∧ sessionAfter (post_transfer_to_sap (some s) first_name (.error ())) = some s := by
  refine ⟨?_, ?_, rfl⟩
  · intro h
    have hc : (resp.status_code == 200 || resp.status_code == 201) = true := by
      rcases h with h | h <;> simp [h]
    refine ⟨{ s with
        transfer_doc_entry := resp.DocEntry
        transfer_doc_num := resp.DocNum
        status := "transferred" }, ?_, rfl, rfl, rfl⟩
    simp [post_transfer_to_sap, sessionAfter, hc]
  · intro h1 h2
    have hc : (resp.status_code == 200 || resp.status_code == 201) = false := by
      simp [h1, h2]
    simp [post_transfer_to_sap, sessionAfter, hc]

/-- Counterexample for C3 as frozen: status 202 is a 2xx response, yet the
code leaves the session untouched, with its status still in_progress and
no transfer identifiers stored, although the answer carried a DocEntry. -/
theorem c3_counterexample :
    (200 ≤ resp202.status_code ∧ resp202.status_code < 300)
    ∧ sessionAfter (post_transfer_to_sap (some ex3) "u" (.ok resp202)) = some ex3
    ∧ ex3.status = "in_progress"
    ∧ ex3.transfer_doc_entry = none
    ∧ resp202.DocEntry = some 77 :=
  ⟨by decide, rfl, rfl, rfl, rfl⟩

/-- Witness for C3 at the concrete session ex3: a 200 answer stores the
identifiers and status, a 500 answer leaves the session unchanged. -/
theorem c3_witness :
    (∃ s2, sessionAfter (post_transfer_to_sap (some ex3) "u" (.ok resp200)) = some s2
      ∧ s2.transfer_doc_entry = resp200.DocEntry
      ∧ s2.transfer_doc_num = resp200.DocNum
      ∧ s2.status = "transferred")
    ∧ sessionAfter (post_transfer_to_sap (some ex3) "u" (.ok resp500)) = some ex3 :=
  ⟨(c3_success_200_201 ex3 "u" resp200).1 (Or.inl rfl),
   (c3_success_200_201 ex3 "u" resp500).2.1 (by decide) (by decide)⟩

lemma buildLines_mem (l : List Item) (idx : ℕ) (line : TransferLine)
    (h : line ∈ buildLines idx l) :
    ∃ j, ∃ hj : j < l.length, line.LineNum = idx + j
      ∧ (l.get ⟨j, hj⟩).qc_status = "approved"
      ∧ line = buildLine (idx + j) (l.get ⟨j, hj⟩) := by
  induction l generalizing idx with
  | nil => exact absurd h (List.not_mem_nil line)
  | cons item rest ih =>
    by_cases hap : (item.qc_status == "approved") = true
    · simp only [buildLines, hap, if_true] at h
      rcases List.mem_cons.mp h with hEq | hMem
      · refine ⟨0, Nat.succ_pos _, ?_, ?_, ?_⟩
        · rw [hEq]; rfl
        · simpa using hap
        · rw [hEq]; rfl
      · obtain ⟨j, hj, h1, h2, h3⟩ := ih (idx + 1) hMem
        refine ⟨j + 1, Nat.succ_lt_succ hj, ?_, ?_, ?_⟩
        · rw [h1]; omega
        · simpa using h2
        · rw [h3]; congr 1; omega
    · simp only [buildLines, hap, Bool.false_eq_true, if_false] at h
      obtain ⟨j, hj, h1, h2, h3⟩ := ih (idx + 1) h
      refine ⟨j + 1, Nat.succ_lt_succ hj, ?_, ?_, ?_⟩
      · rw [h1]; omega
      · simpa using h2
      · rw [h3]; congr 1; omega

lemma buildLines_map_code (idx : ℕ) (l : List Item) :
    (buildLines idx l).map TransferLine.ItemCode
      = (l.filter fun it => it.qc_status == "approved").map Item.item_code := by
  induction l generalizing idx with
  | nil => rfl
  | cons item rest ih =>
    by_cases hap : (item.qc_status == "approved") = true
    · simp [buildLines, List.filter_cons, hap, buildLine, ih (idx + 1)]
    · simp [buildLines, List.filter_cons, hap, ih (idx + 1)]

lemma buildLines_map_qty (idx : ℕ) (l : List Item) :
    (buildLines idx l).map TransferLine.Quantity
      = (l.filter fun it => it.qc_status == "approved").map Item.approved_quantity := by
  induction l generalizing idx with
  | nil => rfl
  | cons item rest ih =>
    by_cases hap : (item.qc_status == "approved") = true
    · simp [buildLines, List.filter_cons, hap, buildLine, ih (idx + 1)]
    · simp [buildLines, List.filter_cons, hap, ih (idx + 1)]

/-- Counterexample for C2 as frozen: in session ex2 the only approved item
is the second one, so the single transfer line carries LineNum 1, its index
in the full item list, not 0, its position in the approved-only sequence. -/
theorem c2_counterexample :
    (build_stock_transfer ex2 "u").StockTransferLines.map TransferLine.LineNum = [1]
    ∧ (build_stock_transfer ex2 "u").StockTransferLines.map TransferLine.LineNum ≠ [0]
    ∧ ex2.items.map Item.qc_status = ["pending", "approved"] :=
  ⟨rfl, by decide, rfl⟩

/-- C2 (amended): the transfer document carries exactly one line per
approved item, in the original item order and with the approved quantity,
and each line's LineNum is the 0-based index of its item in the full,
unfiltered session item list. -/
theorem c2_linenum_full_index (s : Session) (first_name : String)
    (line : TransferLine)
    (hline : line ∈ (build_stock_transfer s first_name).StockTransferLines) :
    ((build_stock_transfer s first_name).StockTransferLines.map TransferLine.ItemCode
      = (s.items.filter fun it => it.qc_status == "approved").map Item.item_code)
    ∧ ((build_stock_transfer s first_name).StockTransferLines.map TransferLine.Quantity
      = (s.items.filter fun it => it.qc_status == "approved").map Item.approved_quantity)
    ∧ ∃ hi : line.LineNum < s.items.length,
        (s.items.get ⟨line.LineNum, hi⟩).qc_status = "approved"
        ∧ (s.items.get ⟨line.LineNum, hi⟩).item_code = line.ItemCode
        ∧ (s.items.get ⟨line.LineNum, hi⟩).approved_quantity = line.Quantity := by
  have hl : (build_stock_transfer s first_name).StockTransferLines
      = buildLines 0 s.items := rfl
  refine ⟨by rw [hl]; exact buildLines_map_code 0 s.items,
          by rw [hl]; exact buildLines_map_qty 0 s.items, ?_⟩
  rw [hl] at hline
  obtain ⟨j, hj, h1, h2, h3⟩ := buildLines_mem s.items 0 line hline
  have hLN : line.LineNum = j := by simpa using h1
  rw [hLN]
  refine ⟨hj, h2, ?_, ?_⟩
  · rw [h3]; rfl
  · rw [h3]; rfl

/-- Witness for C2 at the concrete session ex2 and its single line. -/
theorem c2_witness :
    ex2line ∈ (build_stock_transfer ex2 "u").StockTransferLines
    ∧ ((build_stock_transfer ex2 "u").StockTransferLines.map TransferLine.ItemCode
      = (ex2.items.filter fun it => it.qc_status == "approved").map Item.item_code)
    ∧ ((build_stock_transfer ex2 "u").StockTransferLines.map TransferLine.Quantity
      = (ex2.items.filter fun it => it.qc_status == "approved").map Item.approved_quantity)
    ∧ ∃ hi : ex2line.LineNum < ex2.items.length,
        (ex2.items.get ⟨ex2line.LineNum, hi⟩).qc_status = "approved"
        ∧ (ex2.items.get ⟨ex2line.LineNum, hi⟩).item_code = ex2line.ItemCode
        ∧ (ex2.items.get ⟨ex2line.LineNum, hi⟩).approved_quantity = ex2line.Quantity :=
  ⟨by decide, c2_linenum_full_index ex2 "u" ex2line (by decide)⟩

lemma labelsForItem_fields (sid : ℕ) (sc now : String) (item : Item) (lb : QRLabel)
    (h : lb ∈ labelsForItem sid sc now item) :
    lb.item_id = item.id
    ∧ lb.batch_number = firstBatchNumber item
    ∧ lb.qr_data.batch_number = firstBatchNumber item
    ∧ lb.quantity = 1
    ∧ lb.total_labels = pyTrunc item.approved_quantity := by
  simp only [labelsForItem] at h
  by_cases hc : pyTrunc item.approved_quantity ≤ 0
  · rw [if_pos hc] at h
    exact absurd h (List.not_mem_nil lb)
  · rw [if_neg hc] at h
    obtain ⟨k, _, hEq⟩ := List.mem_map.mp h
    rw [← hEq]
    exact ⟨rfl, rfl, rfl, rfl, rfl⟩

lemma mem_committed (s : Session) (sid : ℕ) (now : String) (lb : QRLabel)
    (h : lb ∈ committedLabels (generate_qr_labels (some s) sid now)) :
    ∃ item, item ∈ s.items
      ∧ item.qc_status = "approved" ∧ 0 < item.approved_quantity
      ∧ lb ∈ labelsForItem sid s.session_code now item := by
  simp only [generate_qr_labels] at h
  by_cases h1 : ((s.items.filter fun item =>
      item.qc_status == "approved" && decide (0 < item.approved_quantity)).isEmpty) = true
  · rw [if_pos h1] at h
    exact absurd h (List.not_mem_nil lb)
  · rw [if_neg h1] at h
    by_cases h2 : (((s.items.filter fun item =>
        item.qc_status == "approved" && decide (0 < item.approved_quantity)).flatMap
          (labelsForItem sid s.session_code now)).length == 0) = true
    · rw [if_pos h2] at h
      exact absurd h (List.not_mem_nil lb)
    · rw [if_neg h2] at h
      simp only [committedLabels] at h
      obtain ⟨item, hitem, hlb⟩ := List.mem_flatMap.mp h
      obtain ⟨hmem, hp⟩ := List.mem_filter.mp hitem
      simp only [Bool.and_eq_true, beq_iff_eq, decide_eq_true_eq] at hp
      exact ⟨item, hmem, hp.1, hp.2, hlb⟩

/-- Counterexample for C6 as frozen: the only item of ex6 has one split
whose batch number is SPL-1 and no batch record; the minted label carries
no batch number at all, both on the row and inside the payload. -/
theorem c6_counterexample :
    (committedLabels (generate_qr_labels (some ex6) 6 "t")).map QRLabel.batch_number = [none]
    ∧ (committedLabels (generate_qr_labels (some ex6) 6 "t")).map
        (fun lb => lb.qr_data.batch_number) = [none]
    ∧ ex6.items.map (fun it => it.splits.map Split.batch_number) = [[some "SPL-1"]]
    ∧ ex6.items.map Item.batches = [[]] :=
  ⟨rfl, rfl, rfl, rfl⟩

/-- C6 (amended): every minted label carries as its batch number the batch
number of the first batch record of its item's batches relation when that
relation is non-empty, and no batch number otherwise; the split ledger is
not consulted. The same value is embedded in the label payload. -/
theorem c6_first_batch_record (s : Session) (sid : ℕ) (now : String) (lb : QRLabel)
    (hmem : lb ∈ committedLabels (generate_qr_labels (some s) sid now)) :
    ∃ item, item ∈ s.items ∧ lb.item_id = item.id
      ∧ lb.batch_number = firstBatchNumber item
      ∧ lb.qr_data.batch_number = firstBatchNumber item := by
  obtain ⟨item, h1, _, _, h4⟩ := mem_committed s sid now lb hmem
  obtain ⟨f1, f2, f3, _, _⟩ := labelsForItem_fields sid s.session_code now item lb h4
  exact ⟨item, h1, f1, f2, f3⟩

/-- Witness for C6 at the concrete session ex6b, whose item carries one
batch record with batch number B-9. -/
theorem c6_witness :
    ex6bLabel ∈ committedLabels (generate_qr_labels (some ex6b) 9 "t")
    ∧ ∃ item, item ∈ ex6b.items ∧ ex6bLabel.item_id = item.id
      ∧ ex6bLabel.batch_number = firstBatchNumber item
      ∧ ex6bLabel.qr_data.batch_number = firstBatchNumber item :=
  ⟨by decide, c6_first_batch_record ex6b 9 "t" ex6bLabel (by decide)⟩

lemma generate_eq_of_ne (s : Session) (sid : ℕ) (now : String)
    (hfne : ¬ ((s.items.filter fun item =>
      item.qc_status == "approved" && decide (0 < item.approved_quantity)).isEmpty = true)) :
    generate_qr_labels (some s) sid now =
      (if ((s.items.filter fun item =>
            item.qc_status == "approved" && decide (0 < item.approved_quantity)).flatMap
              (labelsForItem sid s.session_code now)).length == 0 then
        .noLabelsGenerated
      else
        .ok ((s.items.filter fun item =>
            item.qc_status == "approved" && decide (0 < item.approved_quantity)).flatMap
              (labelsForItem sid s.session_code now))
          ((s.items.filter fun item =>
            item.qc_status == "approved" && decide (0 < item.approved_quantity)).flatMap
              (labelsForItem sid s.session_code now)).length) := by
  simp only [generate_qr_labels, if_neg hfne]

lemma flatMap_filter_by_id (l : List Item) (sid : ℕ) (sc now : String) (item : Item)
    (hnd : (l.map Item.id).Nodup) (hmem : item ∈ l)
    (hp : (item.qc_status == "approved" && decide (0 < item.approved_quantity)) = true) :
    ((l.filter fun it => it.qc_status == "approved" && decide (0 < it.approved_quantity)).flatMap
        (labelsForItem sid sc now)).filter (fun lb => lb.item_id == item.id)
      = labelsForItem sid sc now item := by
  induction l with
  | nil => exact absurd hmem (List.not_mem_nil item)
  | cons j rest ih =>
    rw [List.map_cons, List.nodup_cons] at hnd
    rcases List.mem_cons.mp hmem with hEq | hMem
    · subst hEq
      simp only [List.filter_cons, hp, if_true, List.flatMap_cons, List.filter_append]
      have h1 : (labelsForItem sid sc now item).filter
          (fun lb => lb.item_id == item.id) = labelsForItem sid sc now item :=
        List.filter_eq_self.mpr fun lb hlb => by
          rw [(labelsForItem_fields sid sc now item lb hlb).1]
          exact beq_self_eq_true item.id
      have h2 : ((rest.filter fun it =>
          it.qc_status == "approved" && decide (0 < it.approved_quantity)).flatMap
            (labelsForItem sid sc now)).filter (fun lb => lb.item_id == item.id) = [] := by
        rw [List.filter_eq_nil_iff]
        intro lb hlb
        obtain ⟨it, hit, hlb2⟩ := List.mem_flatMap.mp hlb
        have hid := (labelsForItem_fields sid sc now it lb hlb2).1
        have hitr : it ∈ rest := (List.mem_filter.mp hit).1
        have hne : it.id ≠ item.id := fun hEq2 =>
          hnd.1 (hEq2 ▸ List.mem_map_of_mem Item.id hitr)
        simp [hid, hne]
      rw [h1, h2, List.append_nil]
    · have hne : j.id ≠ item.id := fun hEq2 =>
        hnd.1 (hEq2 ▸ List.mem_map_of_mem Item.id hMem)
      by_cases hpj : (j.qc_status == "approved" && decide (0 < j.approved_quantity)) = true
      · simp only [List.filter_cons, hpj, if_true, List.flatMap_cons, List.filter_append]
        have h2 : (labelsForItem sid sc now j).filter
            (fun lb => lb.item_id == item.id) = [] := by
          rw [List.filter_eq_nil_iff]
          intro lb hlb
          have hid := (labelsForItem_fields sid sc now j lb hlb).1
          simp [hid, hne]
        rw [h2, List.nil_append]
        exact ih hnd.2 hMem
      · simp only [List.filter_cons, hpj, Bool.false_eq_true, if_false]
        exact ih hnd.2 hMem

/-- C1: for every item of a session that is approved with strictly
positive approved quantity, the label rows minted for that item are
exactly the floor of the approved quantity many, numbered consecutively
from 1, each with quantity 1 and total_labels equal to that floor. -/
theorem c1_labels_floor_per_item (s : Session) (sid : ℕ) (now : String)
    (hnd : (s.items.map Item.id).Nodup) (item : Item) (hmem : item ∈ s.items)
    (hst : item.qc_status = "approved") (hq : 0 < item.approved_quantity) :
    (((committedLabels (generate_qr_labels (some s) sid now)).filter
        (fun lb => lb.item_id == item.id)).map QRLabel.label_number
      = (List.range (⌊item.approved_quantity⌋).toNat).map (fun k => k + 1))
    ∧ ∀ lb ∈ (committedLabels (generate_qr_labels (some s) sid now)).filter
        (fun lb => lb.item_id == item.id),
        lb.quantity = 1 ∧ lb.total_labels = ⌊item.approved_quantity⌋ := by
  have hp : (item.qc_status == "approved" && decide (0 < item.approved_quantity)) = true := by
    simp [hst, hq]
  have htr : pyTrunc item.approved_quantity = ⌊item.approved_quantity⌋ := pyTrunc_of_pos hq
  have hfmem : item ∈ s.items.filter (fun it =>
      it.qc_status == "approved" && decide (0 < it.approved_quantity)) :=
    List.mem_filter.mpr ⟨hmem, hp⟩
  have hfne : ¬ ((s.items.filter fun it =>
      it.qc_status == "approved" && decide (0 < it.approved_quantity)).isEmpty = true) := by
    simp only [List.isEmpty_iff]
    exact List.ne_nil_of_mem hfmem
  have hmap : (labelsForItem sid s.session_code now item).map QRLabel.label_number
      = (List.range (⌊item.approved_quantity⌋).toNat).map (fun k => k + 1) := by
    simp only [labelsForItem]
    by_cases hc : pyTrunc item.approved_quantity ≤ 0
    · rw [if_pos hc]
      have h0 : (⌊item.approved_quantity⌋).toNat = 0 :=
        Int.toNat_of_nonpos (htr ▸ hc)
      rw [h0]
      rfl
    · rw [if_neg hc, List.map_map, htr]
      rfl
  have hkey : (committedLabels (generate_qr_labels (some s) sid now)).filter
      (fun lb => lb.item_id == item.id) = labelsForItem sid s.session_code now item := by
    rw [generate_eq_of_ne s sid now hfne]
    by_cases hlen : (((s.items.filter fun it =>
        it.qc_status == "approved" && decide (0 < it.approved_quantity)).flatMap
          (labelsForItem sid s.session_code now)).length == 0) = true
    · rw [if_pos hlen]
      have hLnil : (s.items.filter fun it =>
          it.qc_status == "approved" && decide (0 < it.approved_quantity)).flatMap
            (labelsForItem sid s.session_code now) = [] :=
        List.eq_nil_of_length_eq_zero (by simpa using hlen)
      have hblk : labelsForItem sid s.session_code now item = [] :=
        (List.flatMap_eq_nil_iff.mp hLnil) item hfmem
      rw [hblk]
      rfl
    · rw [if_neg hlen]
      simp only [committedLabels]
      exact flatMap_filter_by_id s.items sid s.session_code now item hnd hmem hp
  refine ⟨by rw [hkey, hmap], ?_⟩
  intro lb hlb
  rw [hkey] at hlb
  obtain ⟨_, _, _, f4, f5⟩ :=
    labelsForItem_fields sid s.session_code now item lb hlb
  exact ⟨f4, htr ▸ f5⟩

/-- Witness for C1 at the concrete session ex1, whose item is approved
with quantity 2.7: exactly two labels, numbered 1 and 2. -/
theorem c1_witness :
    ((ex1.items.map Item.id).Nodup ∧ ex1item ∈ ex1.items
      ∧ ex1item.qc_status = "approved" ∧ 0 < ex1item.approved_quantity)
    ∧ (((committedLabels (generate_qr_labels (some ex1) 7 "t")).filter
        (fun lb => lb.item_id == ex1item.id)).map QRLabel.label_number
      = (List.range (⌊ex1item.approved_quantity⌋).toNat).map (fun k => k + 1))
    ∧ ∀ lb ∈ (committedLabels (generate_qr_labels (some ex1) 7 "t")).filter
        (fun lb => lb.item_id == ex1item.id),
        lb.quantity = 1 ∧ lb.total_labels = ⌊ex1item.approved_quantity⌋ :=
  have h := c1_labels_floor_per_item ex1 7 "t" (by decide) ex1item (by decide) rfl (by decide)
  ⟨⟨by decide, by decide, rfl, by decide⟩, h.1, h.2⟩

/-- Evaluation of the worked example of the specification: quantity 2.7
yields the label numbers 1 and 2 and nothing else. -/
theorem floor_example_eval :
    ((committedLabels (generate_qr_labels (some ex1) 7 "t")).filter
        (fun lb => lb.item_id == ex1item.id)).map QRLabel.label_number = [1, 2] := by
  decide

end GrpoTransfer
